import Mathlib

/-
Verification of the torchgeo datamodule slice:
  src/torchgeo/datamodules/geo.py    (NonGeoDataModule)
  src/torchgeo/datamodules/cowc.py   (COWCCountingDataModule)
  src/torchgeo/datamodules/so2sat.py (So2SatDataModule)
The Python classes are shallowly embedded as Lean records and pure
functions; fallible Python calls are embedded as Except values.
-/

/-- Errors raised by the embedded Python layer. The loader accessors raise
MisconfigurationException naming the missing dataset attribute; reading a
local variable that was never assigned raises UnboundLocalError; calling a
function without a required positional argument raises TypeError. -/
inductive PyError where
  | misconfiguration (dataset_name : String)
  | unboundLocal
  | typeError
deriving DecidableEq, Repr

/-- Model of the external loader factory result (torch DataLoader): the
constructor keyword arguments that geo.py passes are recorded verbatim. -/
structure DataLoader (δ : Type) where
  dataset : δ
  batch_size : Nat
  shuffle : Bool
  num_workers : Nat
deriving DecidableEq, Repr

/-- Python truthiness of the expression given by a fallback with the keyword
or between an Optional[int] and an int: None and 0 are falsy, so both fall
through to the default. Used for the stage batch-size overrides in geo.py. -/
def pyOrNat : Option Nat → Nat → Nat
  | some n, d => if n = 0 then d else n
  | none, d => d

/-- State of NonGeoDataModule (geo.py lines 25-72). The type parameters are
the dataset object type produced by the provider, the type of the forwarded
configuration bag (kwargs), and the batch type; augmentation pipelines are
batch-to-batch functions. dataset_class embeds the provider constructor,
applied to the split string and the configuration bag. -/
structure NonGeoDataModule (δ κ β : Type) where
  dataset_class : String → κ → δ
  batch_size : Nat
  num_workers : Nat
  kwargs : κ
  train_dataset : Option δ
  val_dataset : Option δ
  test_dataset : Option δ
  predict_dataset : Option δ
  train_batch_size : Option Nat
  val_batch_size : Option Nat
  test_batch_size : Option Nat
  predict_batch_size : Option Nat
  aug : β → β
  train_aug : Option (β → β)
  val_aug : Option (β → β)
  test_aug : Option (β → β)
  predict_aug : Option (β → β)

/-- Embedding of NonGeoDataModule constructor (geo.py lines 31-72): datasets
and stage overrides start as None, stage augmentations start as None, and
the default augmentation is the given normalization pipeline. -/
def NonGeoDataModule.init (dataset_class : String → κ → δ) (batch_size : Nat)
    (num_workers : Nat) (kwargs : κ) (aug : β → β) : NonGeoDataModule δ κ β :=
  { dataset_class := dataset_class
    batch_size := batch_size
    num_workers := num_workers
    kwargs := kwargs
    train_dataset := none
    val_dataset := none
    test_dataset := none
    predict_dataset := none
    train_batch_size := none
    val_batch_size := none
    test_batch_size := none
    predict_batch_size := none
    aug := aug
    train_aug := none
    val_aug := none
    test_aug := none
    predict_aug := none }

/-- Embedding of NonGeoDataModule.setup (geo.py lines 84-105): an if/elif
chain on list membership of the stage token. The elif branch for val is
guarded by membership in [fit, validate] but is unreachable for fit because
the first branch already matched; there is no predict branch. -/
def NonGeoDataModule.setup (m : NonGeoDataModule δ κ β) (stage : String) :
    NonGeoDataModule δ κ β :=
  if stage ∈ (["fit"] : List String) then
    { m with train_dataset := some (m.dataset_class "train" m.kwargs) }
  else if stage ∈ (["fit", "validate"] : List String) then
    { m with val_dataset := some (m.dataset_class "val" m.kwargs) }
  else if stage ∈ (["test"] : List String) then
    { m with test_dataset := some (m.dataset_class "test" m.kwargs) }
  else
    m

/-- Embedding of NonGeoDataModule.train_dataloader (geo.py lines 107-126). -/
def NonGeoDataModule.train_dataloader (m : NonGeoDataModule δ κ β) :
    Except PyError (DataLoader δ) :=
  match m.train_dataset with
  | some d =>
      Except.ok
        { dataset := d
          batch_size := pyOrNat m.train_batch_size m.batch_size
          shuffle := true
          num_workers := m.num_workers }
  | none => Except.error (PyError.misconfiguration "train_dataset")

/-- Embedding of NonGeoDataModule.val_dataloader (geo.py lines 128-147). -/
def NonGeoDataModule.val_dataloader (m : NonGeoDataModule δ κ β) :
    Except PyError (DataLoader δ) :=
  match m.val_dataset with
  | some d =>
      Except.ok
        { dataset := d
          batch_size := pyOrNat m.val_batch_size m.batch_size
          shuffle := false
          num_workers := m.num_workers }
  | none => Except.error (PyError.misconfiguration "val_dataset")

/-- Embedding of NonGeoDataModule.test_dataloader (geo.py lines 149-168). -/
def NonGeoDataModule.test_dataloader (m : NonGeoDataModule δ κ β) :
    Except PyError (DataLoader δ) :=
  match m.test_dataset with
  | some d =>
      Except.ok
        { dataset := d
          batch_size := pyOrNat m.test_batch_size m.batch_size
          shuffle := false
          num_workers := m.num_workers }
  | none => Except.error (PyError.misconfiguration "test_dataset")

/-- Embedding of NonGeoDataModule.predict_dataloader (geo.py lines 170-189). -/
def NonGeoDataModule.predict_dataloader (m : NonGeoDataModule δ κ β) :
    Except PyError (DataLoader δ) :=
  match m.predict_dataset with
  | some d =>
      Except.ok
        { dataset := d
          batch_size := pyOrNat m.predict_batch_size m.batch_size
          shuffle := false
          num_workers := m.num_workers }
  | none => Except.error (PyError.misconfiguration "predict_dataset")

/-- Phase flags of the attached trainer, read by on_after_batch_transfer in
the order the if/elif chain reads them. -/
structure TrainerFlags where
  training : Bool
  validating : Bool
  testing : Bool
  predicting : Bool
deriving DecidableEq, Repr

/-- Execution phases a trainer can report. -/
inductive Phase where
  | training
  | validating
  | testing
  | predicting
deriving DecidableEq, Repr

/-- Trainer flag vector reporting exactly one phase as active. -/
def TrainerFlags.ofPhase : Phase → TrainerFlags
  | Phase.training => ⟨true, false, false, false⟩
  | Phase.validating => ⟨false, true, false, false⟩
  | Phase.testing => ⟨false, false, true, false⟩
  | Phase.predicting => ⟨false, false, false, true⟩

/-- Embedding of NonGeoDataModule.on_after_batch_transfer (geo.py lines
191-215). The trainer argument embeds self.trainer: none when no trainer is
attached (the outer if is falsy and the batch is returned unchanged). With
a trainer attached, the if/elif chain assigns the local aug from the first
true flag; if no flag is true, the local aug is read unassigned and the
call raises UnboundLocalError. Stage augmentations are Optional modules and
a module object is always truthy, so the fallback keyword or reduces to
Option.getD. -/
def NonGeoDataModule.on_after_batch_transfer (m : NonGeoDataModule δ κ β)
    (trainer : Option TrainerFlags) (batch : β) : Except PyError β :=
  match trainer with
  | none => Except.ok batch
  | some t =>
      if t.training then Except.ok ((Option.getD m.train_aug m.aug) batch)
      else if t.validating then Except.ok ((Option.getD m.val_aug m.aug) batch)
      else if t.testing then Except.ok ((Option.getD m.test_aug m.aug) batch)
      else if t.predicting then Except.ok ((Option.getD m.predict_aug m.aug) batch)
      else Except.error PyError.unboundLocal

/-- Model of the external collaborator torch.utils.data.random_split on a
dataset of indices with two requested lengths: it draws a random permutation
of the index range and returns the first slice of the first requested
length and the remaining slice. The permutation it draws is passed in
explicitly; the first requested length is the argument a. -/
def random_split2 (indices : List Nat) (a : Nat) : List Nat × List Nat :=
  (indices.take a, indices.drop a)

/-- Embedding of the fold computation of COWCCountingDataModule.setup
(cowc.py lines 36-47): the provider train split has nTrain samples and the
provider test split has nTest samples; the train and val folds are produced
by random_split with requested lengths [nTrain - nTest, nTest], given the
permutation of the nTrain indices drawn by the splitter. -/
def COWCCountingDataModule.setup_folds (nTrain nTest : Nat)
    (indices : List Nat) : List Nat × List Nat :=
  random_split2 indices (nTrain - nTest)

/-- Per-band normalization means of So2SatDataModule (so2sat.py lines 21-32),
a class attribute baked into the augmentation pipeline at construction. -/
def So2SatDataModule.band_means : List Float :=
  [0.12375696117681859,
   0.1092774636368323,
   0.1010855203267882,
   0.1142398616114001,
   0.1592656692023089,
   0.18147236008771792,
   0.1745740312291377,
   0.19501607349635292,
   0.15428468872076637,
   0.10905050699570007]

/-- Per-band normalization standard deviations of So2SatDataModule
(so2sat.py lines 34-45). -/
def So2SatDataModule.band_stds : List Float :=
  [0.03958795985905458,
   0.047778262752410296,
   0.06636616706371974,
   0.06358874912497474,
   0.07744387147984592,
   0.09101635085921553,
   0.09218466562387101,
   0.10164581233948201,
   0.09991773043519253,
   0.08780632509122865]

/-- Modelled from the spec: the So2Sat dataset provider class (external to
this source slice, only its datamodule wrapper is under src) declares a
catalog of named band sets; the entry for the key s2 lists the ten
Sentinel-2 spectral bands, one per fixed normalization constant pair of the
datamodule. -/
def So2Sat_BAND_SETS_s2 : List String :=
  ["B02", "B03", "B04", "B05", "B06", "B07", "B08", "B8A", "B11", "B12"]

/-- Model of the external So2Sat dataset provider constructor contract
(spec section 6): it records the split name, the selected bands, and the
forwarded configuration bag. -/
structure So2SatDataset (κ : Type) where
  split : String
  bands : List String
  kwargs : κ
deriving DecidableEq, Repr

/-- Normalization configuration of the augmentation pipeline built by
So2SatDataModule: the mean and standard-deviation vectors passed to the
Normalize transform. -/
structure NormalizeAug where
  mean : List Float
  std : List Float

/-- State of So2SatDataModule (so2sat.py lines 15-78): the fields its
constructor body assigns after the parent constructor call. -/
structure So2SatDataModule (κ : Type) where
  batch_size : Nat
  num_workers : Nat
  band_set : String
  unsupervised_mode : Bool
  kwargs : κ
  aug : NormalizeAug
  train_dataset : Option (So2SatDataset κ)
  val_dataset : Option (So2SatDataset κ)
  test_dataset : Option (So2SatDataset κ)

/-- State assembled by the body of So2SatDataModule constructor (so2sat.py
lines 69-78) once the parent constructor has run: configuration fields are
stored, dataset references start as None, and the augmentation pipeline is
built from the class-level band_means and band_stds. -/
def So2SatDataModule.init_fields (batch_size : Nat) (num_workers : Nat)
    (band_set : String) (unsupervised_mode : Bool) (kwargs : κ) :
    So2SatDataModule κ :=
  { batch_size := batch_size
    num_workers := num_workers
    band_set := band_set
    unsupervised_mode := unsupervised_mode
    kwargs := kwargs
    aug := { mean := So2SatDataModule.band_means, std := So2SatDataModule.band_stds }
    train_dataset := none
    val_dataset := none
    test_dataset := none }

/-- Embedding of So2SatDataModule constructor as invoked in Python
(so2sat.py lines 50-78): its first statement calls the parent constructor
with no arguments, but NonGeoDataModule constructor (geo.py line 31)
requires the positional argument dataset_class, so the call raises
TypeError before any field of the body is assigned. -/
def So2SatDataModule.init (batch_size : Nat) (num_workers : Nat)
    (band_set : String) (unsupervised_mode : Bool) (kwargs : κ) :
    Except PyError (So2SatDataModule κ) :=
  Except.error PyError.typeError

/-- Embedding of So2SatDataModule.setup (so2sat.py lines 80-91): the stage
argument is ignored; the bands are always looked up under the key s2 in the
provider band catalog, and all three dataset references are assigned from
the splits train, validation and test with those bands and the stored
configuration bag. -/
def So2SatDataModule.setup (m : So2SatDataModule κ) (stage : Option String) :
    So2SatDataModule κ :=
  let bands := So2Sat_BAND_SETS_s2
  { m with
    train_dataset := some { split := "train", bands := bands, kwargs := m.kwargs }
    val_dataset := some { split := "validation", bands := bands, kwargs := m.kwargs }
    test_dataset := some { split := "test", bands := bands, kwargs := m.kwargs } }

/-- Concrete module for closed evaluations: the provider constructor records
the split string, batch size 8, two workers, default augmentation adds one. -/
def demoDM : NonGeoDataModule String Unit Nat :=
  NonGeoDataModule.init (fun s _ => s) 8 2 () (fun b => b + 1)

/-- Concrete module with the train stage batch-size override set to 4 and
the train dataset populated. -/
def demoDM2 : NonGeoDataModule String Unit Nat :=
  { demoDM.setup "fit" with train_batch_size := some 4 }

/-- Claim C1: for every stage, the stage dataloader raises the configuration
error exactly when the stage dataset reference is None, and returns a loader
when the reference is set. -/
theorem C1_loader_error_iff_unset {δ κ β : Type} (m : NonGeoDataModule δ κ β) :
    (m.train_dataloader = Except.error (PyError.misconfiguration "train_dataset")
        ↔ m.train_dataset = none) ∧
    (m.train_dataset ≠ none → ∃ l, m.train_dataloader = Except.ok l) ∧
    (m.val_dataloader = Except.error (PyError.misconfiguration "val_dataset")
        ↔ m.val_dataset = none) ∧
    (m.val_dataset ≠ none → ∃ l, m.val_dataloader = Except.ok l) ∧
    (m.test_dataloader = Except.error (PyError.misconfiguration "test_dataset")
        ↔ m.test_dataset = none) ∧
    (m.test_dataset ≠ none → ∃ l, m.test_dataloader = Except.ok l) ∧
    (m.predict_dataloader = Except.error (PyError.misconfiguration "predict_dataset")
        ↔ m.predict_dataset = none) ∧
    (m.predict_dataset ≠ none → ∃ l, m.predict_dataloader = Except.ok l) := by
  refine ⟨?_, ?_, ?_, ?_, ?_, ?_, ?_, ?_⟩
  · cases h : m.train_dataset <;> simp [NonGeoDataModule.train_dataloader, h]
  · cases h : m.train_dataset <;> simp [NonGeoDataModule.train_dataloader, h]
  · cases h : m.val_dataset <;> simp [NonGeoDataModule.val_dataloader, h]
  · cases h : m.val_dataset <;> simp [NonGeoDataModule.val_dataloader, h]
  · cases h : m.test_dataset <;> simp [NonGeoDataModule.test_dataloader, h]
  · cases h : m.test_dataset <;> simp [NonGeoDataModule.test_dataloader, h]
  · cases h : m.predict_dataset <;> simp [NonGeoDataModule.predict_dataloader, h]
  · cases h : m.predict_dataset <;> simp [NonGeoDataModule.predict_dataloader, h]

/-- Claim C1 witness: on the concrete module the train dataloader raises
before setup and succeeds after setup for fit. -/
theorem C1_witness :
    demoDM.train_dataloader = Except.error (PyError.misconfiguration "train_dataset") ∧
    (∃ l, (demoDM.setup "fit").train_dataloader = Except.ok l) :=
  ⟨(C1_loader_error_iff_unset demoDM).1.mpr rfl,
   (C1_loader_error_iff_unset (demoDM.setup "fit")).2.1 (by decide)⟩

/-- Claim C2 counterexample: on the concrete module, setup for predict does
not populate the predict dataset reference (setup has no predict branch), so
the predict dataloader still raises the configuration error. -/
theorem C2_counterexample :
    (demoDM.setup "predict").predict_dataloader
      = Except.error (PyError.misconfiguration "predict_dataset") := rfl

/-- Claim C2 amended: setup for fit makes the train dataloader succeed,
setup for validate makes the val dataloader succeed, and setup for test
makes the test dataloader succeed; setup for predict changes nothing, and
setup for fit leaves the val dataset reference unchanged, so the predict and
val-after-fit dataloader requests still raise. -/
theorem C2_setup_then_loader {δ κ β : Type} (m : NonGeoDataModule δ κ β) :
    (∃ l, (m.setup "fit").train_dataloader = Except.ok l) ∧
    (∃ l, (m.setup "validate").val_dataloader = Except.ok l) ∧
    (∃ l, (m.setup "test").test_dataloader = Except.ok l) ∧
    m.setup "predict" = m ∧
    (m.setup "fit").val_dataset = m.val_dataset :=
  ⟨⟨_, rfl⟩, ⟨_, rfl⟩, ⟨_, rfl⟩, rfl, rfl⟩

/-- Claim C2 witness: the amended statement evaluated on the concrete
module. -/
theorem C2_witness : ∃ l, (demoDM.setup "fit").train_dataloader = Except.ok l :=
  (C2_setup_then_loader demoDM).1

/-- Claim C3: setup for fit assigns only the train dataset reference, built
from the provider with split train and the configuration bag; the val, test
and predict references are unchanged, the val branch being unreachable for
the stage token fit. -/
theorem C3_setup_fit_frame {δ κ β : Type} (m : NonGeoDataModule δ κ β) :
    (m.setup "fit").train_dataset = some (m.dataset_class "train" m.kwargs) ∧
    (m.setup "fit").val_dataset = m.val_dataset ∧
    (m.setup "fit").test_dataset = m.test_dataset ∧
    (m.setup "fit").predict_dataset = m.predict_dataset :=
  ⟨rfl, rfl, rfl, rfl⟩

/-- Claim C3 witness: on the concrete module, setup for fit leaves the val
dataset reference at None. -/
theorem C3_witness : (demoDM.setup "fit").val_dataset = none :=
  (C3_setup_fit_frame demoDM).2.1.trans rfl

/-- Claim C4: for each phase reported by the attached trainer, the batch
transform applies the stage-specific pipeline when set and the module-level
default otherwise; in particular, with phase validating and val_aug unset,
the module-level default is applied. -/
theorem C4_aug_dispatch {δ κ β : Type} (m : NonGeoDataModule δ κ β) (b : β) :
    m.on_after_batch_transfer (some (TrainerFlags.ofPhase Phase.training)) b
      = Except.ok ((Option.getD m.train_aug m.aug) b) ∧
    m.on_after_batch_transfer (some (TrainerFlags.ofPhase Phase.validating)) b
      = Except.ok ((Option.getD m.val_aug m.aug) b) ∧
    m.on_after_batch_transfer (some (TrainerFlags.ofPhase Phase.testing)) b
      = Except.ok ((Option.getD m.test_aug m.aug) b) ∧
    m.on_after_batch_transfer (some (TrainerFlags.ofPhase Phase.predicting)) b
      = Except.ok ((Option.getD m.predict_aug m.aug) b) ∧
    (m.val_aug = none →
      m.on_after_batch_transfer (some (TrainerFlags.ofPhase Phase.validating)) b
        = Except.ok (m.aug b)) := by
  refine ⟨rfl, rfl, rfl, rfl, fun h => ?_⟩
  simp [NonGeoDataModule.on_after_batch_transfer, TrainerFlags.ofPhase, h]

/-- Claim C4 witness: on the concrete module, whose val_aug is unset and
whose default pipeline adds one, the validating phase applies the default. -/
theorem C4_witness :
    demoDM.on_after_batch_transfer (some (TrainerFlags.ofPhase Phase.validating)) 3
      = Except.ok 4 :=
  (C4_aug_dispatch demoDM 3).2.2.2.2 rfl

/-- Claim C7: every loader the module constructs is built with shuffle true
exactly for the train stage and shuffle false for val, test and predict. -/
theorem C7_shuffle_policy {δ κ β : Type} (m : NonGeoDataModule δ κ β)
    (l : DataLoader δ) :
    (m.train_dataloader = Except.ok l → l.shuffle = true) ∧
    (m.val_dataloader = Except.ok l → l.shuffle = false) ∧
    (m.test_dataloader = Except.ok l → l.shuffle = false) ∧
    (m.predict_dataloader = Except.ok l → l.shuffle = false) := by
  refine ⟨fun h => ?_, fun h => ?_, fun h => ?_, fun h => ?_⟩
  · cases hd : m.train_dataset with
    | none => simp [NonGeoDataModule.train_dataloader, hd] at h
    | some d =>
        simp [NonGeoDataModule.train_dataloader, hd] at h
        rw [← h]
  · cases hd : m.val_dataset with
    | none => simp [NonGeoDataModule.val_dataloader, hd] at h
    | some d =>
        simp [NonGeoDataModule.val_dataloader, hd] at h
        rw [← h]
  · cases hd : m.test_dataset with
    | none => simp [NonGeoDataModule.test_dataloader, hd] at h
    | some d =>
        simp [NonGeoDataModule.test_dataloader, hd] at h
        rw [← h]
  · cases hd : m.predict_dataset with
    | none => simp [NonGeoDataModule.predict_dataloader, hd] at h
    | some d =>
        simp [NonGeoDataModule.predict_dataloader, hd] at h
        rw [← h]

/-- Claim C7 witness: the loader built after setup for fit has shuffle
true. -/
theorem C7_witness :
    (DataLoader.mk "train" 8 true 2).shuffle = true :=
  (C7_shuffle_policy (demoDM.setup "fit") (DataLoader.mk "train" 8 true 2)).1 rfl

/-- Claim C8: the loader built for a stage carries the stage batch-size
override when it is set to a positive value, and the global default when the
override is None; the truthiness fallback in the source also sends a zero
override to the default, hence the positivity precondition. -/
theorem C8_batch_size_selection {δ κ β : Type} (m : NonGeoDataModule δ κ β)
    (l : DataLoader δ) :
    (m.train_dataloader = Except.ok l →
      (∀ n, m.train_batch_size = some n → 0 < n → l.batch_size = n) ∧
      (m.train_batch_size = none → l.batch_size = m.batch_size)) ∧
    (m.val_dataloader = Except.ok l →
      (∀ n, m.val_batch_size = some n → 0 < n → l.batch_size = n) ∧
      (m.val_batch_size = none → l.batch_size = m.batch_size)) ∧
    (m.test_dataloader = Except.ok l →
      (∀ n, m.test_batch_size = some n → 0 < n → l.batch_size = n) ∧
      (m.test_batch_size = none → l.batch_size = m.batch_size)) ∧
    (m.predict_dataloader = Except.ok l →
      (∀ n, m.predict_batch_size = some n → 0 < n → l.batch_size = n) ∧
      (m.predict_batch_size = none → l.batch_size = m.batch_size)) := by
  refine ⟨fun h => ?_, fun h => ?_, fun h => ?_, fun h => ?_⟩
  · cases hd : m.train_dataset with
    | none => simp [NonGeoDataModule.train_dataloader, hd] at h
    | some d =>
        simp [NonGeoDataModule.train_dataloader, hd] at h
        refine ⟨fun n hn hpos => ?_, fun hn => ?_⟩
        · rw [← h]; simp [pyOrNat, hn, Nat.pos_iff_ne_zero.mp hpos]
        · rw [← h]; simp [pyOrNat, hn]
  · cases hd : m.val_dataset with
    | none => simp [NonGeoDataModule.val_dataloader, hd] at h
    | some d =>
        simp [NonGeoDataModule.val_dataloader, hd] at h
        refine ⟨fun n hn hpos => ?_, fun hn => ?_⟩
        · rw [← h]; simp [pyOrNat, hn, Nat.pos_iff_ne_zero.mp hpos]
        · rw [← h]; simp [pyOrNat, hn]
  · cases hd : m.test_dataset with
    | none => simp [NonGeoDataModule.test_dataloader, hd] at h
    | some d =>
        simp [NonGeoDataModule.test_dataloader, hd] at h
        refine ⟨fun n hn hpos => ?_, fun hn => ?_⟩
        · rw [← h]; simp [pyOrNat, hn, Nat.pos_iff_ne_zero.mp hpos]
        · rw [← h]; simp [pyOrNat, hn]
  · cases hd : m.predict_dataset with
    | none => simp [NonGeoDataModule.predict_dataloader, hd] at h
    | some d =>
        simp [NonGeoDataModule.predict_dataloader, hd] at h
        refine ⟨fun n hn hpos => ?_, fun hn => ?_⟩
        · rw [← h]; simp [pyOrNat, hn, Nat.pos_iff_ne_zero.mp hpos]
        · rw [← h]; simp [pyOrNat, hn]

/-- Claim C8 witness: with the train override set to 4 and the global
default 8, the train loader is built with batch size 4. -/
theorem C8_witness : (DataLoader.mk "train" 4 true 2).batch_size = 4 :=
  ((C8_batch_size_selection demoDM2 (DataLoader.mk "train" 4 true 2)).1 rfl).1
    4 rfl (by decide)

/-- Claim C10: with no trainer attached the batch is returned unchanged, and
with a trainer attached the call raises the unbound-local error exactly when
none of the four phase flags is true. -/
theorem C10_unbound_local {δ κ β : Type} (m : NonGeoDataModule δ κ β) (b : β) :
    m.on_after_batch_transfer none b = Except.ok b ∧
    ∀ t : TrainerFlags,
      (m.on_after_batch_transfer (some t) b = Except.error PyError.unboundLocal ↔
        t.training = false ∧ t.validating = false ∧ t.testing = false ∧
          t.predicting = false) := by
  refine ⟨rfl, fun t => ?_⟩
  obtain ⟨f1, f2, f3, f4⟩ := t
  cases f1 <;> cases f2 <;> cases f3 <;> cases f4 <;>
    simp [NonGeoDataModule.on_after_batch_transfer]

/-- Claim C10 witness: on the concrete module with a trainer attached whose
four phase flags are all false, the call raises the unbound-local error. -/
theorem C10_witness :
    demoDM.on_after_batch_transfer (some ⟨false, false, false, false⟩) 0
      = Except.error PyError.unboundLocal :=
  ((C10_unbound_local demoDM 0).2 ⟨false, false, false, false⟩).mpr
    ⟨rfl, rfl, rfl, rfl⟩

/-- Claim C5: with a provider train split of nTrain samples, a provider test
split of nTest samples, nTest at most nTrain, and any permutation of the
nTrain indices drawn by the splitter, the counting-style setup produces a
train fold and a val fold whose sizes sum to nTrain, whose val fold has
exactly nTest indices, and which are disjoint and together a permutation of
the original index range. -/
theorem C5_cowc_partition (nTrain nTest : Nat) (indices : List Nat)
    (hperm : indices.Perm (List.range nTrain)) (hle : nTest ≤ nTrain) :
    (COWCCountingDataModule.setup_folds nTrain nTest indices).1.length +
      (COWCCountingDataModule.setup_folds nTrain nTest indices).2.length
        = nTrain ∧
    (COWCCountingDataModule.setup_folds nTrain nTest indices).2.length
      = nTest ∧
    (COWCCountingDataModule.setup_folds nTrain nTest indices).1.Disjoint
      (COWCCountingDataModule.setup_folds nTrain nTest indices).2 ∧
    ((COWCCountingDataModule.setup_folds nTrain nTest indices).1 ++
      (COWCCountingDataModule.setup_folds nTrain nTest indices).2).Perm
        (List.range nTrain) := by
  have hlen : indices.length = nTrain := by simpa using hperm.length_eq
  have hnd : indices.Nodup := hperm.nodup_iff.mpr (List.nodup_range nTrain)
  refine ⟨?_, ?_, ?_, ?_⟩
  · simp only [COWCCountingDataModule.setup_folds, random_split2,
      List.length_take, List.length_drop, hlen]
    omega
  · simp only [COWCCountingDataModule.setup_folds, random_split2,
      List.length_drop, hlen]
    omega
  · exact List.disjoint_take_drop hnd (le_refl _)
  · simpa only [COWCCountingDataModule.setup_folds, random_split2,
      List.take_append_drop] using hperm

/-- Claim C5 witness: with five train samples, two test samples and a
concrete permutation of the five indices, the folds have sizes three and
two, are disjoint, and together exhaust the index range. -/
theorem C5_witness :
    (COWCCountingDataModule.setup_folds 5 2 [2, 0, 4, 1, 3]).1.length +
      (COWCCountingDataModule.setup_folds 5 2 [2, 0, 4, 1, 3]).2.length = 5 ∧
    (COWCCountingDataModule.setup_folds 5 2 [2, 0, 4, 1, 3]).2.length = 2 ∧
    (COWCCountingDataModule.setup_folds 5 2 [2, 0, 4, 1, 3]).1.Disjoint
      (COWCCountingDataModule.setup_folds 5 2 [2, 0, 4, 1, 3]).2 ∧
    ((COWCCountingDataModule.setup_folds 5 2 [2, 0, 4, 1, 3]).1 ++
      (COWCCountingDataModule.setup_folds 5 2 [2, 0, 4, 1, 3]).2).Perm
        (List.range 5) :=
  C5_cowc_partition 5 2 [2, 0, 4, 1, 3] (by decide) (by decide)

/-- Claim C6: the constructor of the multi-band datamodule raises TypeError
on every call, because its parent-constructor call omits the required
dataset_class argument; on the state its body would assemble, setup passes
exactly the provider band catalog entry for s2 to all three dataset
constructions, and the normalization mean and standard-deviation vectors
baked into the augmentation each have length equal to the number of
selected bands. -/
theorem C6_s2_bands {κ : Type} (bs nw : Nat) (u : Bool) (kw : κ)
    (st : Option String) :
    So2SatDataModule.init bs nw "s2" u kw
      = (Except.error PyError.typeError : Except PyError (So2SatDataModule κ)) ∧
    ((So2SatDataModule.init_fields bs nw "s2" u kw).setup st).train_dataset
      = some ⟨"train", So2Sat_BAND_SETS_s2, kw⟩ ∧
    ((So2SatDataModule.init_fields bs nw "s2" u kw).setup st).val_dataset
      = some ⟨"validation", So2Sat_BAND_SETS_s2, kw⟩ ∧
    ((So2SatDataModule.init_fields bs nw "s2" u kw).setup st).test_dataset
      = some ⟨"test", So2Sat_BAND_SETS_s2, kw⟩ ∧
    (So2SatDataModule.init_fields bs nw "s2" u kw).aug.mean.length
      = So2Sat_BAND_SETS_s2.length ∧
    (So2SatDataModule.init_fields bs nw "s2" u kw).aug.std.length
      = So2Sat_BAND_SETS_s2.length :=
  ⟨rfl, rfl, rfl, rfl, rfl, rfl⟩

/-- Claim C6 witness: the constructor evaluation and the band selection at
concrete arguments. -/
theorem C6_witness :
    ((So2SatDataModule.init_fields 64 0 "s2" false ()).setup none).train_dataset
      = some ⟨"train", So2Sat_BAND_SETS_s2, ()⟩ :=
  (C6_s2_bands 64 0 false () none).2.1

/-- Claim C9: the unsupervised_mode flag has no effect in this slice: the
constructor outcome is the same for both flag values, and on states that
differ only in the flag, setup assigns identical train, val and test
dataset references for any stage token. -/
theorem C9_unsupervised_no_effect {κ : Type} (bs nw : Nat) (b : String)
    (u1 u2 : Bool) (kw : κ) (st : Option String) :
    So2SatDataModule.init bs nw b u1 kw = So2SatDataModule.init bs nw b u2 kw ∧
    ((So2SatDataModule.init_fields bs nw b u1 kw).setup st).train_dataset
      = ((So2SatDataModule.init_fields bs nw b u2 kw).setup st).train_dataset ∧
    ((So2SatDataModule.init_fields bs nw b u1 kw).setup st).val_dataset
      = ((So2SatDataModule.init_fields bs nw b u2 kw).setup st).val_dataset ∧
    ((So2SatDataModule.init_fields bs nw b u1 kw).setup st).test_dataset
      = ((So2SatDataModule.init_fields bs nw b u2 kw).setup st).test_dataset :=
  ⟨rfl, rfl, rfl, rfl⟩

/-- Claim C9 witness: the flag independence evaluated at concrete
arguments. -/
theorem C9_witness :
    ((So2SatDataModule.init_fields 64 0 "rgb" true ()).setup none).train_dataset
      = ((So2SatDataModule.init_fields 64 0 "rgb" false ()).setup none).train_dataset :=
  (C9_unsupervised_no_effect 64 0 "rgb" true false () none).2.1
